import Mathlib

/-
  Verification development for the dam-automation datasource lifecycle
  orchestrator.  The definitions below are a shallow embedding of the
  Python sources (dam_automation/models.py, config.py, state.py,
  service.py, workflow.py): dataclasses become structures, methods become
  functions, exceptions become Except values, and the mutable JSON-file
  state store becomes explicit state passing over an association list.
-/

namespace DamAutomation

/-! ## Data model (models.py) -/

/-- Naive datetime as produced by datetime.utcnow(): calendar fields plus
microseconds.  Embeds datetime values at the granularity the state layer
manipulates (replace(microsecond=0), isoformat, fromisoformat). -/
structure PyDateTime where
  year : Nat
  month : Nat
  day : Nat
  hour : Nat
  minute : Nat
  second : Nat
  microsecond : Nat
deriving DecidableEq, Repr

/-- models.DatasourceRequest: user-facing request payload. -/
structure DatasourceRequest where
  name : String
  description : Option String := none
  owner : Option String := none
  labels : List (String × String) := []
deriving DecidableEq, Repr

/-- models.DatasourceResources: materialized resources per datasource.
created_at defaults to utcnow() in the source; the embedding passes the
clock value explicitly wherever a record is constructed. -/
structure DatasourceResources where
  container_url : String
  managed_identity_id : String
  storage_credential_name : String
  external_location_name : String
  catalog_name : String
  group_name : String
  service_principal_app_id : String
  service_principal_client_secret : String
  databricks_oauth_client_secret : String
  snowflake_external_volume_name : String
  snowflake_catalog_integration_name : String
  snowflake_database_name : String
  created_at : PyDateTime
deriving DecidableEq, Repr

/-- models.DatasourceRecord: state persisted for idempotent operations.
status defaults to "succeeded" and last_error to None as in the source. -/
structure DatasourceRecord where
  request : DatasourceRequest
  resources : DatasourceResources
  status : String := "succeeded"
  last_error : Option String := none
  updated_at : PyDateTime
deriving DecidableEq, Repr

/-- models.DatasourceRecord.mark_failed: set status, last_error, updated_at. -/
def DatasourceRecord.markFailed (r : DatasourceRecord) (errText : String)
    (now : PyDateTime) : DatasourceRecord :=
  { r with status := "failed", last_error := some errText, updated_at := now }

/-- models.DatasourceRecord.mark_succeeded: set status, clear last_error. -/
def DatasourceRecord.markSucceeded (r : DatasourceRecord)
    (now : PyDateTime) : DatasourceRecord :=
  { r with status := "succeeded", last_error := none, updated_at := now }

/-- models.DeletionOutcome: per-subsystem deletion result. -/
structure DeletionOutcome where
  succeeded : Bool
  message : Option String := none
deriving DecidableEq, Repr

/-- models.DatasourceDeletionResult: aggregate outcome of delete_datasource. -/
structure DatasourceDeletionResult where
  input_name : String
  normalized_name : String
  state_record_name : String
  state_deleted : Bool
  state_found : Bool
  azure : DeletionOutcome
  identity : DeletionOutcome
  databricks : DeletionOutcome
  snowflake : DeletionOutcome
deriving DecidableEq, Repr

/-! ## Configuration (config.py), restricted to the fields the service reads -/

/-- config.AzureConfig fields consumed by the service. -/
structure AzureCfg where
  subscription_id : String
  tenant_id : String
  storage_account : String
  identity_resource_group : String
  data_plane_dns_suffix : String
deriving DecidableEq, Repr

/-- config.DatabricksConfig fields consumed by the service. -/
structure DatabricksCfg where
  workspace_url : String
  access_connector_id : String
deriving DecidableEq, Repr

/-- config.SnowflakeConfig fields consumed by the service.  Optional
default_schema is modelled as a String where the empty string stands for
None (both are falsy under the Python `or` the service applies). -/
structure SnowflakeCfg where
  default_schema : String
  oauth_allowed_scopes : List String
  namespace_mode : String
  namespace_flatten_delimiter : String
  catalog_source : String
  table_format : String
deriving DecidableEq, Repr

/-- config.NamingConfig: optional global prefix (source field name:
naming.prefix, Optional[str]; the empty string models both None and "",
which are equally falsy in qualify_name) and a separator. -/
structure NamingCfg where
  prefixValue : String
  separator : String
deriving DecidableEq, Repr

/-- config.AutomationConfig, restricted to the fields the service reads. -/
structure AutomationCfg where
  azure : AzureCfg
  databricks : DatabricksCfg
  snowflake : SnowflakeCfg
  naming : NamingCfg
deriving DecidableEq, Repr

/-- config.AutomationConfig.qualify_name: segments = [base]; if prefix is
truthy, insert it at the front; join with the separator. -/
def qualifyName (cfg : AutomationCfg) (base : String) : String :=
  if cfg.naming.prefixValue ≠ "" then
    cfg.naming.prefixValue ++ cfg.naming.separator ++ base
  else base

/-! ## Naming policy (service.DatasourceAutomationService._normalize_name) -/

/-- Character class [a-z0-9-] used by the normalization regexes. -/
def isNameChar (c : Char) : Bool :=
  (97 ≤ c.toNat && c.toNat ≤ 122) || (48 ≤ c.toNat && c.toNat ≤ 57) || c = '-'

/-- re.sub(r"[^a-z0-9-]", "-", s): per-character replacement. -/
def dashSub (l : List Char) : List Char :=
  l.map (fun c => if isNameChar c then c else '-')

/-- str.strip("-"): drop all leading and trailing dashes. -/
def pyStripDashes (l : List Char) : List Char :=
  ((l.dropWhile (fun c => c = '-')).reverse.dropWhile (fun c => c = '-')).reverse

/-- re.sub(r"-+", "-", s): collapse runs of dashes to a single dash. -/
def collapseDashes : List Char → List Char
  | [] => []
  | [c] => [c]
  | c :: d :: rest =>
    if c = '-' ∧ d = '-' then collapseDashes (d :: rest)
    else c :: collapseDashes (d :: rest)

/-- The candidate computed by _normalize_name before qualification:
lower-case, substitute the charset, strip dashes, collapse dash runs.
Case mapping is embedded at ASCII granularity (Char.toLower), which
agrees with str.lower() on the ASCII range; any non-ASCII character is
replaced by the charset substitution in the next step either way. -/
def sanitizeBase (raw : String) : String :=
  String.mk (collapseDashes (pyStripDashes (dashSub (raw.data.map Char.toLower))))

/-- service._normalize_name: sanitize, qualify with the configured
prefix/separator, truncate to 63 characters. -/
def normalizeName (cfg : AutomationCfg) (raw : String) : String :=
  String.mk ((qualifyName cfg (sanitizeBase raw)).data.take 63)

/-- Detector for a doubled dash ("--" as a substring). -/
def hasDoubleDash : List Char → Bool
  | [] => false
  | [_] => false
  | c :: d :: rest => (c = '-' ∧ d = '-') || hasDoubleDash (d :: rest)

/-! ## Computable string helpers

Structurally recursive counterparts of the Python string operations the
sources use (split, replace, int conversion, decimal rendering), so that
every definition evaluates inside the kernel. -/

/-- str.split(sep) for a single-character separator, accumulator form. -/
def splitOnCharAux (sep : Char) : List Char → List Char → List (List Char)
  | [], acc => [acc.reverse]
  | c :: rest, acc =>
    if c = sep then acc.reverse :: splitOnCharAux sep rest []
    else splitOnCharAux sep rest (c :: acc)

/-- str.split(sep) for a single-character separator. -/
def pySplitChar (s : String) (sep : Char) : List String :=
  (splitOnCharAux sep s.data []).map String.mk

/-- Split at the first occurrence of a separator sequence: the text
before it and the text after it, or none when it does not occur. -/
def splitFirst (sep : List Char) : List Char → Option (List Char × List Char)
  | [] => if sep.isEmpty then some ([], []) else none
  | c :: rest =>
    if sep.isPrefixOf (c :: rest) then some ([], (c :: rest).drop sep.length)
    else
      match splitFirst sep rest with
      | some (pre, post) => some (c :: pre, post)
      | none => none

/-- Decimal digit character. -/
def natDigitChar (n : Nat) : Char := Char.ofNat (48 + n)

/-- Decimal rendering with an explicit fuel bound (fuel larger than the
number of digits). -/
def natToDecAux : Nat → Nat → List Char
  | 0, _ => []
  | fuel + 1, n =>
    if n < 10 then [natDigitChar n]
    else natToDecAux fuel (n / 10) ++ [natDigitChar (n % 10)]

/-- Decimal rendering of a natural number. -/
def natToDec (n : Nat) : String := String.mk (natToDecAux (n + 1) n)

/-- Value of a decimal digit character. -/
def digitVal? (c : Char) : Option Nat :=
  if 48 ≤ c.toNat ∧ c.toNat ≤ 57 then some (c.toNat - 48) else none

/-- Digit-string parser, accumulator form. -/
def parseNatAux : List Char → Nat → Option Nat
  | [], acc => some acc
  | c :: rest, acc =>
    match digitVal? c with
    | some d => parseNatAux rest (acc * 10 + d)
    | none => none

/-- int(s) on the all-digit field shapes fromisoformat consumes; any
other input fails. -/
def pyParseNat? (s : String) : Option Nat :=
  match s.data with
  | [] => none
  | l => parseNatAux l 0

/-! ## State serialization (state.py) -/

/-- Left-pad a decimal rendering to the given width with zeros, as the
fixed-width fields of datetime.isoformat do. -/
def padNat (width : Nat) (n : Nat) : String :=
  let s := natToDec n
  String.mk (List.replicate (width - s.length) '0') ++ s

/-- datetime.isoformat(): "YYYY-MM-DDTHH:MM:SS", with a ".ffffff"
fraction appended only when microsecond is nonzero. -/
def isoformat (d : PyDateTime) : String :=
  padNat 4 d.year ++ "-" ++ padNat 2 d.month ++ "-" ++ padNat 2 d.day ++ "T" ++
    padNat 2 d.hour ++ ":" ++ padNat 2 d.minute ++ ":" ++ padNat 2 d.second ++
    (if d.microsecond = 0 then "" else "." ++ padNat 6 d.microsecond)

/-- state._serialize_datetime: value.replace(microsecond=0).isoformat() + "Z". -/
def serializeDatetime (v : PyDateTime) : String :=
  isoformat { v with microsecond := 0 } ++ "Z"

/-- str.rstrip(c): drop all trailing occurrences of the character. -/
def pyRstrip (s : String) (c : Char) : String :=
  String.mk ((s.data.reverse.dropWhile (fun x => x = c)).reverse)

/-- datetime.fromisoformat on the "YYYY-MM-DDTHH:MM:SS" shape that
_serialize_datetime emits (microseconds are always zeroed before
serialization, so no fraction appears); any other input is a parse
failure, as fromisoformat raises ValueError. -/
def fromisoformat? (s : String) : Option PyDateTime :=
  match pySplitChar s 'T' with
  | [date, time] =>
    match pySplitChar date '-', pySplitChar time ':' with
    | [y, m, d], [hh, mm, ss] =>
      match pyParseNat? y, pyParseNat? m, pyParseNat? d,
          pyParseNat? hh, pyParseNat? mm, pyParseNat? ss with
      | some yv, some mv, some dv, some hv, some miv, some sv =>
        some ⟨yv, mv, dv, hv, miv, sv, 0⟩
      | _, _, _, _, _, _ => none
    | _, _ => none
  | _ => none

/-- state._deserialize_datetime: datetime.fromisoformat(value.rstrip("Z")). -/
def deserializeDatetime (s : String) : Except String PyDateTime :=
  match fromisoformat? (pyRstrip s 'Z') with
  | some d => .ok d
  | none => .error ("Invalid isoformat string: " ++ s)

/-- JSON shape of the request sub-document produced by asdict(record). -/
structure RequestJson where
  name : String
  description : Option String
  owner : Option String
  labels : List (String × String)
deriving DecidableEq, Repr

/-- JSON shape of the resources sub-document produced by asdict(record),
after _record_to_json replaces created_at with its serialized string. -/
structure ResourcesJson where
  container_url : String
  managed_identity_id : String
  storage_credential_name : String
  external_location_name : String
  catalog_name : String
  group_name : String
  service_principal_app_id : String
  service_principal_client_secret : String
  databricks_oauth_client_secret : String
  snowflake_external_volume_name : String
  snowflake_catalog_integration_name : String
  snowflake_database_name : String
  created_at : String
deriving DecidableEq, Repr

/-- JSON shape of the whole record document written by the state store. -/
structure RecordJson where
  request : RequestJson
  resources : ResourcesJson
  status : String
  last_error : Option String
  updated_at : String
deriving DecidableEq, Repr

/-- state._record_to_json: asdict(record) with the two datetime fields
overwritten by their serialized forms. -/
def recordToJson (record : DatasourceRecord) : RecordJson :=
  { request := { name := record.request.name
                 description := record.request.description
                 owner := record.request.owner
                 labels := record.request.labels }
    resources := { container_url := record.resources.container_url
                   managed_identity_id := record.resources.managed_identity_id
                   storage_credential_name := record.resources.storage_credential_name
                   external_location_name := record.resources.external_location_name
                   catalog_name := record.resources.catalog_name
                   group_name := record.resources.group_name
                   service_principal_app_id := record.resources.service_principal_app_id
                   service_principal_client_secret := record.resources.service_principal_client_secret
                   databricks_oauth_client_secret := record.resources.databricks_oauth_client_secret
                   snowflake_external_volume_name := record.resources.snowflake_external_volume_name
                   snowflake_catalog_integration_name := record.resources.snowflake_catalog_integration_name
                   snowflake_database_name := record.resources.snowflake_database_name
                   created_at := serializeDatetime record.resources.created_at }
    status := record.status
    last_error := record.last_error
    updated_at := serializeDatetime record.updated_at }

/-- Keyword-argument value for a DatasourceResources constructor call. -/
inductive ResourceArg where
  | strA (s : String)
  | dtA (d : PyDateTime)
deriving DecidableEq, Repr

/-- Keyword lookup in a kwargs list. -/
def kwlookup (kwargs : List (String × ResourceArg)) (k : String) : Option ResourceArg :=
  (kwargs.find? (fun p => p.1 = k)).map (fun p => p.2)

/-- Fetch a required string argument of the DatasourceResources
constructor; a missing argument is Python's TypeError for a dataclass
call that omits a field with no default. -/
def getStrArg (kwargs : List (String × ResourceArg)) (k : String) : Except String String :=
  match kwlookup kwargs k with
  | some (.strA s) => .ok s
  | some (.dtA _) => .error ("unexpected argument type for " ++ k)
  | none => .error ("DatasourceResources missing required argument: " ++ k)

/-- Semantics of the DatasourceResources(...) dataclass call: every field
without a default must be supplied as a keyword argument; created_at
falls back to its default (datetime.utcnow(), passed in as now). -/
def datasourceResourcesFromKwargs (kwargs : List (String × ResourceArg))
    (now : PyDateTime) : Except String DatasourceResources := do
  let container_url ← getStrArg kwargs "container_url"
  let managed_identity_id ← getStrArg kwargs "managed_identity_id"
  let storage_credential_name ← getStrArg kwargs "storage_credential_name"
  let external_location_name ← getStrArg kwargs "external_location_name"
  let catalog_name ← getStrArg kwargs "catalog_name"
  let group_name ← getStrArg kwargs "group_name"
  let service_principal_app_id ← getStrArg kwargs "service_principal_app_id"
  let service_principal_client_secret ← getStrArg kwargs "service_principal_client_secret"
  let databricks_oauth_client_secret ← getStrArg kwargs "databricks_oauth_client_secret"
  let snowflake_external_volume_name ← getStrArg kwargs "snowflake_external_volume_name"
  let snowflake_catalog_integration_name ← getStrArg kwargs "snowflake_catalog_integration_name"
  let snowflake_database_name ← getStrArg kwargs "snowflake_database_name"
  let created_at :=
    match kwlookup kwargs "created_at" with
    | some (.dtA d) => d
    | _ => now
  .ok ⟨container_url, managed_identity_id, storage_credential_name,
       external_location_name, catalog_name, group_name,
       service_principal_app_id, service_principal_client_secret,
       databricks_oauth_client_secret, snowflake_external_volume_name,
       snowflake_catalog_integration_name, snowflake_database_name, created_at⟩

/-- state._json_to_record: rebuild a DatasourceRecord from its JSON
document.  The source passes exactly eight keyword arguments to the
DatasourceResources constructor (seven strings plus created_at); the
remaining five dataclass fields have no default, so the call is modelled
through datasourceResourcesFromKwargs, which reports the missing
argument exactly as the Python call raises TypeError. -/
def jsonToRecord (data : RecordJson) (now : PyDateTime) : Except String DatasourceRecord := do
  let createdAt ← deserializeDatetime data.resources.created_at
  let resources ← datasourceResourcesFromKwargs
    [("container_url", .strA data.resources.container_url),
     ("managed_identity_id", .strA data.resources.managed_identity_id),
     ("storage_credential_name", .strA data.resources.storage_credential_name),
     ("external_location_name", .strA data.resources.external_location_name),
     ("catalog_name", .strA data.resources.catalog_name),
     ("group_name", .strA data.resources.group_name),
     ("service_principal_app_id", .strA data.resources.service_principal_app_id),
     ("created_at", .dtA createdAt)] now
  let request : DatasourceRequest :=
    { name := data.request.name
      description := data.request.description
      owner := data.request.owner
      labels := data.request.labels }
  let updatedAt ← deserializeDatetime data.updated_at
  .ok { request := request
        resources := resources
        status := data.status
        last_error := data.last_error
        updated_at := updatedAt }

/-! ## State store (state.StateStore)

The store is embedded as an association list from sanitized file keys to
the JSON documents on disk (save writes json.dumps(_record_to_json(r));
get reads the text back and runs _json_to_record on it, which can raise
— deserialization failures propagate to the callers as reading a stored
file does in the source). -/

/-- Keyed storage: file stem to the stored JSON document, in creation
order. -/
abbrev StoreJ := List (String × RecordJson)

/-- StateStore._path_for: file stem with "/" replaced by "_". -/
def safeName (s : String) : String :=
  String.mk (s.data.map (fun c => if c = '/' then '_' else c))

/-- StateStore.get: absent file yields None; a present file is parsed
with _json_to_record, whose exceptions propagate (the now argument
stands for datetime.utcnow(), the created_at dataclass default). -/
def storeGetE (st : StoreJ) (n : String) (now : PyDateTime) :
    Except String (Option DatasourceRecord) :=
  match st.find? (fun p => p.1 = safeName n) with
  | none => .ok none
  | some p => (jsonToRecord p.2 now).map some

/-- StateStore.save: serialize with _record_to_json and write under the
record's request-name key, overwriting any previous document there. -/
def storeSaveJ (st : StoreJ) (r : DatasourceRecord) : StoreJ :=
  let key := safeName r.request.name
  if (st.find? (fun p => p.1 = key)).isSome then
    st.map (fun p => if p.1 = key then (key, recordToJson r) else p)
  else st ++ [(key, recordToJson r)]

/-- Modelled from the spec: StateStore.delete(key) -> bool.  The delete
method is called by the service and exercised by the repository's tests,
but its definition is not present under src/; per the State Store
contract ("delete(key) -> bool") it removes the stored document for the
key and reports whether one existed. -/
def storeDeleteJ (st : StoreJ) (n : String) : StoreJ × Bool :=
  let key := safeName n
  if (st.find? (fun p => p.1 = key)).isSome then
    (st.filter (fun p => p.1 ≠ key), true)
  else (st, false)

/-- StateStore.list_records: parse every stored document in turn with
_json_to_record; the first parse failure propagates, as the source's
loop raises there. -/
def storeListRecordsE : StoreJ → PyDateTime → Except String (List DatasourceRecord)
  | [], _ => .ok []
  | p :: rest, now => do
    let r ← jsonToRecord p.2 now
    let rs ← storeListRecordsE rest now
    .ok (r :: rs)

/-- StateStore.exists: a pure path check, no parsing. -/
def storeExistsJ (st : StoreJ) (n : String) : Bool :=
  (st.find? (fun p => p.1 = safeName n)).isSome

/-! ## Errors and the retry policy (service._provision_resources decorator) -/

/-- Exception classes that reach the orchestrator: transient network
errors (ConnectionError, TimeoutError), the two Snowflake classes from
snowflake.py (both RuntimeError subclasses), and any other exception. -/
inductive PyErr where
  | connectionError (msg : String)
  | timeoutError (msg : String)
  | snowflakeInUse (msg : String)
  | snowflakeAuth (msg : String)
  | runtimeError (msg : String)
  | typeError (msg : String)
deriving DecidableEq, Repr

/-- str(exc): the message text of the exception. -/
def strErr : PyErr → String
  | .connectionError m => m
  | .timeoutError m => m
  | .snowflakeInUse m => m
  | .snowflakeAuth m => m
  | .runtimeError m => m
  | .typeError m => m

/-- retry_if_exception_type((ConnectionError, TimeoutError)): only the
transient network classes are retried; the Snowflake errors are
RuntimeError subclasses and are not. -/
def isRetryableErr : PyErr → Bool
  | .connectionError _ => true
  | .timeoutError _ => true
  | _ => false

/-- tenacity.wait_exponential(multiplier, min, max) evaluated after the
failed attempt with the given 1-based number:
max(max(0, min), min(multiplier * 2^(attempt-1), max)). -/
def waitExponential (multiplier minW maxW attempt : Nat) : Nat :=
  max (max 0 minW) (min (multiplier * 2 ^ (attempt - 1)) maxW)

/-- Bounded retry of an attempt family f (f k is the outcome of the k-th
underlying invocation).  Returns the surfaced outcome (reraise=True
surfaces the last exception itself), the number of attempts performed,
and the backoff waits slept between attempts.  The first argument is the
remaining attempt budget, the second the current attempt number. -/
def retryLoop (f : Nat → Except PyErr α) : Nat → Nat → Except PyErr α × Nat × List Nat
  | 0, k => (f k, k, [])
  | remaining + 1, k =>
    match f k with
    | .ok v => (.ok v, k, [])
    | .error e =>
      if isRetryableErr e ∧ remaining ≠ 0 then
        let r := retryLoop f remaining (k + 1)
        (r.1, r.2.1, waitExponential 1 1 8 k :: r.2.2)
      else (.error e, k, [])

/-- The retry policy on service._provision_resources:
stop_after_attempt(3), wait_exponential(multiplier=1, min=1, max=8),
retry only for (ConnectionError, TimeoutError), reraise=True. -/
def provisionRetryPolicy (f : Nat → Except PyErr α) : Except PyErr α × Nat × List Nat :=
  retryLoop f 3 1

/-! ## Creation orchestration (service.create_datasource) -/

/-- dict assignment d[k] = v. -/
def dictSet (d : List (String × String)) (k v : String) : List (String × String) :=
  if (d.find? (fun p => p.1 = k)).isSome then
    d.map (fun p => if p.1 = k then (k, v) else p)
  else d ++ [(k, v)]

/-- service._build_tags: datasource=name, optional owner, then all labels. -/
def buildTags (request : DatasourceRequest) : List (String × String) :=
  let tags := [("datasource", request.name)]
  let tags :=
    match request.owner with
    | some o => if o ≠ "" then dictSet tags "owner" o else tags
    | none => tags
  request.labels.foldl (fun acc p => dictSet acc p.1 p.2) tags

/-- service._empty_resources: all-empty-string resources (created_at
takes the dataclass default utcnow(), passed as now). -/
def emptyResources (now : PyDateTime) : DatasourceResources :=
  ⟨"", "", "", "", "", "", "", "", "", "", "", "", now⟩

/-- A provisioning procedure as create_datasource consumes it: given the
normalized name, request, tags, and prior record, it either yields the
new record or fails, and reports the trace of remote subsystem calls it
performed (labels in call order). -/
abbrev ProvisionFun :=
  String → DatasourceRequest → List (String × String) → Option DatasourceRecord →
    Except PyErr DatasourceRecord × List String

/-- The non-short-circuit body of create_datasource: provision, persist a
succeeded record on success; on failure persist a failed record reusing
the prior resources if any, then re-raise. -/
def createProvisionPathE (provision : ProvisionFun) (store : StoreJ)
    (request : DatasourceRequest) (now : PyDateTime) (normalizedName : String)
    (existing : Option DatasourceRecord) :
    Except PyErr DatasourceRecord × StoreJ × List String :=
  let tags := buildTags request
  let attempt := provision normalizedName request tags existing
  match attempt.1 with
  | .ok record =>
    let record := record.markSucceeded now
    (.ok record, storeSaveJ store record, attempt.2)
  | .error e =>
    let resources :=
      match existing with
      | some ex => ex.resources
      | none => emptyResources now
    let record := (DatasourceRecord.mk request resources "succeeded" none now).markFailed (strErr e) now
    (.error e, storeSaveJ store record, attempt.2)

/-- service.create_datasource: normalize, look the normalized name up in
the state store (this call sits outside the try block, so a TypeError
raised by _json_to_record on a stored document propagates to the caller
before any remote call), short-circuit on a stored succeeded record,
otherwise provision and persist the outcome.  Returns the result
(re-raised error on failure), the updated store, and the trace of remote
calls performed. -/
def createDatasourceE (cfg : AutomationCfg) (provision : ProvisionFun)
    (store : StoreJ) (request : DatasourceRequest) (now : PyDateTime) :
    Except PyErr DatasourceRecord × StoreJ × List String :=
  let normalizedName := normalizeName cfg request.name
  match storeGetE store normalizedName now with
  | .error msg => (.error (.typeError msg), store, [])
  | .ok (some r) =>
    if r.status = "succeeded" then (.ok r, store, [])
    else createProvisionPathE provision store request now normalizedName (some r)
  | .ok none => createProvisionPathE provision store request now normalizedName none

/-! ## Subsystem result types (azure.py, identity.py, databricks.py, snowflake.py) -/

/-- azure.AzureContainer. -/
structure AzureContainer where
  name : String
  blob_url : String
  abfss_url : String
  resource_id : String
deriving DecidableEq, Repr

/-- azure.AzureIdentity. -/
structure AzureIdentity where
  name : String
  client_id : String
  principal_id : String
  resource_id : String
deriving DecidableEq, Repr

/-- identity.DirectoryObject. -/
structure DirectoryObject where
  object_id : String
  display_name : String
deriving DecidableEq, Repr

/-- identity.ServicePrincipal (DirectoryObject plus app/client ids). -/
structure ServicePrincipal where
  object_id : String
  display_name : String
  app_id : String
  client_id : String
deriving DecidableEq, Repr

/-- identity.DirectoryGroup. -/
structure DirectoryGroup where
  object_id : String
  display_name : String
deriving DecidableEq, Repr

/-- identity.ApplicationSecret. -/
structure ApplicationSecret where
  key_id : String
  display_name : String
  secret_text : String
  expires_on : PyDateTime
deriving DecidableEq, Repr

/-- databricks.StorageCredential. -/
structure StorageCredential where
  name : String
  id : String
deriving DecidableEq, Repr

/-- databricks.ExternalLocation. -/
structure ExternalLocation where
  name : String
  url : String
deriving DecidableEq, Repr

/-- databricks.Catalog. -/
structure Catalog where
  name : String
  metastore_id : String
  storage_root : String
deriving DecidableEq, Repr

/-- databricks.AccountServicePrincipal. -/
structure AccountServicePrincipal where
  id : String
  application_id : String
  display_name : String
deriving DecidableEq, Repr

/-- databricks.ServicePrincipalSecret. -/
structure ServicePrincipalSecret where
  client_id : String
  secret_id : String
  secret_value : String
  secret_name : String
deriving DecidableEq, Repr

/-- One raw SCIM group dict as databricks.ensure_group returns: the
service reads group["id"] and group.get("displayName", default). -/
structure DbGroup where
  id : String
  displayName : Option String
deriving DecidableEq, Repr

/-- databricks.ensure_group result: the ro/rw group pair. -/
structure DbGroups where
  ro : DbGroup
  rw : DbGroup
deriving DecidableEq, Repr

/-- snowflake.SnowflakeExternalVolume. -/
structure SnowflakeExternalVolume where
  name : String
deriving DecidableEq, Repr

/-- snowflake.SnowflakeCatalogIntegration. -/
structure SnowflakeCatalogIntegration where
  name : String
deriving DecidableEq, Repr

/-- snowflake.SnowflakeCatalogLinkedDatabase. -/
structure SnowflakeCatalogLinkedDatabase where
  name : String
deriving DecidableEq, Repr

/-- snowflake.SnowflakeDropSummary. -/
structure SnowflakeDropSummary where
  external_volume_dropped : Bool
  catalog_integration_dropped : Bool
  database_dropped : Bool
deriving DecidableEq, Repr

/-! ## String helpers used by the service -/

/-- str.replace(pat, repl, 1): replace the first occurrence only. -/
def pyReplaceFirst (s pat repl : String) : String :=
  match splitFirst pat.data s.data with
  | some (pre, post) => String.mk pre ++ repl ++ String.mk post
  | none => s

/-- str.upper() at ASCII granularity. -/
def pyUpper (s : String) : String := String.mk (s.data.map Char.toUpper)

/-- service._to_azure_storage_base_url:
blob_url.replace("https://", "azure://", 1).rstrip("/") + "/". -/
def toAzureStorageBaseUrl (blobUrl : String) : String :=
  pyRstrip (pyReplaceFirst blobUrl "https://" "azure://") '/' ++ "/"

/-! ## Provisioning sequence (service._provision_resources) -/

/-- Arguments of snowflake.ensure_catalog_integration as the service
passes them. -/
structure CatalogIntegrationArgs where
  name : String
  catalog_name : String
  catalog_uri : String
  client_id : String
  client_secret : String
  token_endpoint : String
  scopes : List String
  catalog_source : String
  table_format : String
deriving DecidableEq, Repr

/-- The remote subsystems as _provision_resources consumes them.  Each
field is one provisioner operation; operations whose only effect is a
remote mutation (role assignments, connector attachment, group
membership, privileges) return None in the source and appear here only
as entries of the call trace.  ensure_catalog_integration takes the
1-based invocation index so that the one-shot cleanup-and-retry path can
observe a different remote outcome after the cleanup. -/
structure ProvisionEnv where
  ensureContainer : String → List (String × String) → AzureContainer
  ensureUserAssignedIdentity : String → List (String × String) → AzureIdentity
  ensureApplication : String → DirectoryObject
  ensureServicePrincipal : String → ServicePrincipal
  ensureGroup : String → Option String → DirectoryGroup
  createApplicationSecret : String → String → ApplicationSecret
  ensureAccountServicePrincipal : String → String → AccountServicePrincipal
  ensureDatabricksGroup : String → DbGroups
  createServicePrincipalSecret : String → String → ServicePrincipalSecret
  ensureStorageCredential : String → String → StorageCredential
  ensureExternalLocation : String → String → String → ExternalLocation
  ensureCatalog : String → String → Catalog
  ensureExternalVolume : String → String → String → SnowflakeExternalVolume
  ensureCatalogIntegration : Nat → CatalogIntegrationArgs → Except PyErr SnowflakeCatalogIntegration
  ensureCatalogLinkedDatabase : String → String → String → String → String →
    Except PyErr SnowflakeCatalogLinkedDatabase
  primeCatalogLinkedDatabase : String → String → String → Except PyErr Unit
  now : PyDateTime

/-- Tail of _provision_resources after the catalog integration is
obtained: ensure the catalog-linked database (a
SnowflakeAuthorizationError is logged and re-raised, any other error
propagates unchanged), prime it best-effort (the outcome is swallowed),
and assemble the final record. -/
def provisionFinish (env : ProvisionEnv) (request : DatasourceRequest)
    (linkedDbName schemaName tableName : String)
    (integrationName externalVolumeName : String)
    (namespaceMode namespaceDelimiter : String)
    (mkResources : String → DatasourceResources)
    (traceSoFar : List String) : Except PyErr DatasourceRecord × List String :=
  match env.ensureCatalogLinkedDatabase linkedDbName integrationName externalVolumeName
      namespaceMode namespaceDelimiter with
  | .error e => (.error e, traceSoFar ++ ["ensure_catalog_linked_database"])
  | .ok catalogLinkedDb =>
    let _primeOutcome := env.primeCatalogLinkedDatabase catalogLinkedDb.name schemaName tableName
    (.ok ⟨request, mkResources catalogLinkedDb.name, "succeeded", none, env.now⟩,
     traceSoFar ++ ["ensure_catalog_linked_database", "prime_catalog_linked_database"])

/-- service._provision_resources (the undecorated body; its tenacity
retry decorator is embedded separately as provisionRetryPolicy): the
full creation sequence, returning the new record or the first surfaced
error, together with the trace of remote calls performed. -/
def provisionResources (env : ProvisionEnv) (cfg : AutomationCfg)
    (normalizedName : String) (request : DatasourceRequest)
    (tags : List (String × String)) (existing : Option DatasourceRecord) :
    Except PyErr DatasourceRecord × List String :=
  let container := env.ensureContainer normalizedName tags
  let identity := env.ensureUserAssignedIdentity normalizedName tags
  let app := env.ensureApplication normalizedName
  let servicePrincipal := env.ensureServicePrincipal app.object_id
  let _group := env.ensureGroup normalizedName request.description
  let cachedAzureSecret :=
    match existing with
    | some ex =>
      if ex.resources.service_principal_client_secret ≠ "" then
        ex.resources.service_principal_client_secret
      else ""
    | none => ""
  let azureClientSecretValue :=
    if cachedAzureSecret ≠ "" then cachedAzureSecret
    else (env.createApplicationSecret app.object_id (normalizedName ++ "-snowflake")).secret_text
  let azureSecretTrace : List String :=
    if cachedAzureSecret ≠ "" then [] else ["create_application_secret"]
  let accountSp := env.ensureAccountServicePrincipal servicePrincipal.app_id servicePrincipal.display_name
  let _managedIdentitySp := env.ensureAccountServicePrincipal identity.client_id identity.name
  let databricksGroups := env.ensureDatabricksGroup normalizedName
  let rwGroup := databricksGroups.rw
  let cachedDatabricksSecret :=
    match existing with
    | some ex =>
      if ex.resources.databricks_oauth_client_secret ≠ "" then
        ex.resources.databricks_oauth_client_secret
      else ""
    | none => ""
  let secretName := normalizedName ++ "-snowflake"
  let databricksClientSecretValue :=
    if cachedDatabricksSecret ≠ "" then cachedDatabricksSecret
    else (env.createServicePrincipalSecret accountSp.id secretName).secret_value
  let databricksSecretTrace : List String :=
    if cachedDatabricksSecret ≠ "" then [] else ["create_service_principal_secret"]
  let storageCredential := env.ensureStorageCredential normalizedName identity.resource_id
  let externalLocation := env.ensureExternalLocation normalizedName container.abfss_url storageCredential.name
  let catalog := env.ensureCatalog normalizedName externalLocation.url
  let rwPrincipal := rwGroup.displayName.getD (normalizedName ++ "-rw")
  let storageBaseUrl := toAzureStorageBaseUrl container.blob_url
  let externalVolume := env.ensureExternalVolume normalizedName storageBaseUrl cfg.azure.tenant_id
  let tokenEndpoint := pyRstrip cfg.databricks.workspace_url '/' ++ "/oidc/v1/token"
  let catalogUri := pyRstrip cfg.databricks.workspace_url '/' ++ "/api/2.1/unity-catalog/iceberg-rest"
  let linkedDbName := normalizedName ++ "_linked_db"
  let schemaName :=
    if cfg.snowflake.default_schema ≠ "" then cfg.snowflake.default_schema
    else normalizedName ++ "_schema"
  let tableName := "test_table"
  let preTrace : List String :=
    ["ensure_container", "ensure_user_assigned_identity",
     "ensure_storage_account_role_assignment", "attach_identity_to_access_connector",
     "ensure_application", "ensure_service_principal", "ensure_group",
     "add_group_member", "ensure_storage_account_role_assignment"]
    ++ azureSecretTrace
    ++ ["ensure_account_service_principal", "ensure_workspace_service_principal",
        "ensure_account_service_principal", "ensure_databricks_group",
        "add_service_principal_to_group"]
    ++ databricksSecretTrace
    ++ ["ensure_storage_credential", "ensure_external_location", "ensure_catalog",
        "grant_catalog_privileges_all", "ensure_external_volume"]
  let integrationArgs : CatalogIntegrationArgs :=
    ⟨normalizedName, catalog.name, catalogUri, servicePrincipal.app_id,
     databricksClientSecretValue, tokenEndpoint, cfg.snowflake.oauth_allowed_scopes,
     cfg.snowflake.catalog_source, cfg.snowflake.table_format⟩
  let mkResources : String → String → DatasourceResources :=
    fun integrationName dbName =>
      ⟨externalLocation.url, identity.resource_id, storageCredential.name,
       externalLocation.name, catalog.name, rwPrincipal, servicePrincipal.app_id,
       azureClientSecretValue, databricksClientSecretValue, externalVolume.name,
       integrationName, dbName, env.now⟩
  match env.ensureCatalogIntegration 1 integrationArgs with
  | .ok catalogIntegration =>
    provisionFinish env request linkedDbName schemaName tableName
      catalogIntegration.name externalVolume.name
      (pyUpper cfg.snowflake.namespace_mode) cfg.snowflake.namespace_flatten_delimiter
      (mkResources catalogIntegration.name)
      (preTrace ++ ["ensure_catalog_integration"])
  | .error (.snowflakeInUse _) =>
    let retryTrace := preTrace ++
      ["ensure_catalog_integration", "cleanup_catalog_linked_artifacts",
       "ensure_catalog_integration"]
    match env.ensureCatalogIntegration 2 integrationArgs with
    | .ok catalogIntegration =>
      provisionFinish env request linkedDbName schemaName tableName
        catalogIntegration.name externalVolume.name
        (pyUpper cfg.snowflake.namespace_mode) cfg.snowflake.namespace_flatten_delimiter
        (mkResources catalogIntegration.name) retryTrace
    | .error e2 => (.error e2, retryTrace)
  | .error e => (.error e, preTrace ++ ["ensure_catalog_integration"])

/-- The provisioning function create_datasource calls, built from a
subsystem environment (single underlying attempt; the retry decorator is
analyzed separately via provisionRetryPolicy). -/
def provisionOf (env : ProvisionEnv) (cfg : AutomationCfg) : ProvisionFun :=
  fun normalizedName request tags existing =>
    provisionResources env cfg normalizedName request tags existing

/-! ## Deletion orchestration (service.delete_datasource) -/

/-- Python `a or b` on strings: b when a is empty. -/
def orIfEmpty (a b : String) : String := if a ≠ "" then a else b

/-- service._extract_container_name: take what stands between the scheme
and the first "@" or "/" of the container URL. -/
def extractContainerName (containerUrl : String) : String :=
  if containerUrl = "" then ""
  else
    let remainder :=
      match splitFirst "://".data containerUrl.data with
      | some (_, post) => String.mk post
      | none => containerUrl
    let remainder :=
      match splitFirst ['@'] remainder.data with
      | some (pre, _) => String.mk pre
      | none => remainder
    match splitFirst ['/'] remainder.data with
    | some (pre, _) => String.mk pre
    | none => remainder

/-- service._extract_identity_name: last path segment of the resource id
(after stripping trailing slashes), or the fallback when empty. -/
def extractIdentityName (resourceId fallback : String) : String :=
  if resourceId ≠ "" then (pySplitChar (pyRstrip resourceId '/') '/').getLastD ""
  else fallback

/-- str.endswith over the character lists. -/
def pyEndsWith (s suffixStr : String) : Bool :=
  suffixStr.data.isSuffixOf s.data

/-- Drop the last n characters, as slicing s[:-n] does. -/
def pyDropRight (s : String) (n : Nat) : String :=
  String.mk (s.data.take (s.data.length - n))

/-- service._derive_ro_group_name. -/
def deriveRoGroupName (rwGroupName fallbackBase : String) : String :=
  let base :=
    if pyEndsWith rwGroupName "-rw" then pyDropRight rwGroupName 3
    else if pyEndsWith rwGroupName "_rw" then pyDropRight rwGroupName 3
    else fallbackBase
  base ++ "-ro"

/-- The remote surface delete_datasource consumes.  The Snowflake
teardown is embedded in full (deleteSnowflakeResources below wraps
drop_objects); the Databricks, identity and Azure per-subsystem teardown
helpers each collect step errors internally and reduce to one
DeletionOutcome, so they enter the model as the outcome value they
produce.  resolveApplicationAppId is the best-effort application lookup
used when synthesizing an inferred record. -/
structure DeleteEnv where
  resolveApplicationAppId : String → Except PyErr (Option String)
  snowflakeDropObjects : String → String → String → Except PyErr SnowflakeDropSummary
  databricksOutcome : DeletionOutcome
  identityOutcome : DeletionOutcome
  azureOutcome : DeletionOutcome
  now : PyDateTime

/-- Python repr of a bool inside an f-string. -/
def pyBoolStr (b : Bool) : String := if b then "True" else "False"

/-- service._inferred_resources: identifiers synthesized from naming
conventions alone, with a best-effort application lookup for the
service-principal id (failures and absent results both yield ""). -/
def inferredResources (denv : DeleteEnv) (cfg : AutomationCfg)
    (normalizedName : String) : DatasourceResources :=
  let containerUrl :=
    "abfss://" ++ normalizedName ++ "@" ++ cfg.azure.storage_account ++ "." ++
      cfg.azure.data_plane_dns_suffix ++ "/"
  let identityResourceId :=
    "/subscriptions/" ++ cfg.azure.subscription_id ++ "/resourceGroups/" ++
      cfg.azure.identity_resource_group ++
      "/providers/Microsoft.ManagedIdentity/userAssignedIdentities/" ++ normalizedName
  let servicePrincipalAppId :=
    match denv.resolveApplicationAppId normalizedName with
    | .ok (some appId) => if appId ≠ "" then appId else ""
    | .ok none => ""
    | .error _ => ""
  ⟨containerUrl, identityResourceId, normalizedName, normalizedName, normalizedName,
   normalizedName ++ "-rw", servicePrincipalAppId, "", "", normalizedName,
   normalizedName, normalizedName ++ "_linked_db", denv.now⟩

/-- service._build_inferred_record: an inferred record whose request
carries the normalized name. -/
def buildInferredRecord (denv : DeleteEnv) (cfg : AutomationCfg)
    (normalizedName : String) : DatasourceRecord :=
  ⟨⟨normalizedName, none, none, []⟩, inferredResources denv cfg normalizedName,
   "succeeded", none, denv.now⟩

/-- service._find_state_record: normalized key, then the raw input key,
then a linear scan matching normalized request names, then an inferred
record (reporting that no stored record was found).  Every lookup goes
through _json_to_record, whose exceptions propagate uncaught. -/
def findStateRecordE (denv : DeleteEnv) (cfg : AutomationCfg) (store : StoreJ)
    (originalName normalizedName : String) :
    Except String (DatasourceRecord × String × Bool) :=
  match storeGetE store normalizedName denv.now with
  | .error e => .error e
  | .ok (some record) => .ok (record, normalizedName, true)
  | .ok none =>
    match storeGetE store originalName denv.now with
    | .error e => .error e
    | .ok (some record) => .ok (record, originalName, true)
    | .ok none =>
      match storeListRecordsE store denv.now with
      | .error e => .error e
      | .ok records =>
        match records.find?
            (fun c => normalizeName cfg c.request.name = normalizedName) with
        | some candidate => .ok (candidate, candidate.request.name, true)
        | none => .ok (buildInferredRecord denv cfg normalizedName, normalizedName, false)

/-- service._delete_snowflake_resources: drop the linked database,
catalog integration, and external volume (recorded names, falling back
to convention); an exception yields a failed outcome carrying str(exc),
never a raise. -/
def deleteSnowflakeResources (denv : DeleteEnv) (normalizedName : String)
    (resources : DatasourceResources) : DeletionOutcome :=
  let externalVolumeName := orIfEmpty resources.snowflake_external_volume_name normalizedName
  let catalogIntegrationName := orIfEmpty resources.snowflake_catalog_integration_name normalizedName
  let databaseName := orIfEmpty resources.snowflake_database_name (normalizedName ++ "_linked_db")
  match denv.snowflakeDropObjects databaseName catalogIntegrationName externalVolumeName with
  | .ok summary =>
    ⟨true, some ("database_dropped=" ++ pyBoolStr summary.database_dropped ++
      ", catalog_integration_dropped=" ++ pyBoolStr summary.catalog_integration_dropped ++
      ", external_volume_dropped=" ++ pyBoolStr summary.external_volume_dropped)⟩
  | .error e => ⟨false, some (strErr e)⟩

/-- service.delete_datasource: resolve the record (a TypeError from the
state-store reads propagates to the caller — record resolution happens
before any subsystem teardown), attempt all four subsystem teardowns
(never raising for subsystem failures), delete the state record only
when every outcome succeeded and a stored record was found, and
aggregate everything into a DatasourceDeletionResult.  Returns the
result (or the propagated resolution error) and the updated store. -/
def deleteDatasourceE (denv : DeleteEnv) (cfg : AutomationCfg) (store : StoreJ)
    (name : String) : Except PyErr DatasourceDeletionResult × StoreJ :=
  let normalizedName := normalizeName cfg name
  match findStateRecordE denv cfg store name normalizedName with
  | .error msg => (.error (.typeError msg), store)
  | .ok found =>
    let record := found.1
    let stateKey := found.2.1
    let stateExists := found.2.2
    let resources := record.resources
    let _containerName := orIfEmpty (extractContainerName resources.container_url) normalizedName
    let _identityName := extractIdentityName resources.managed_identity_id normalizedName
    let _storageCredentialName := orIfEmpty resources.storage_credential_name normalizedName
    let _externalLocationName := orIfEmpty resources.external_location_name normalizedName
    let _catalogName := orIfEmpty resources.catalog_name normalizedName
    let rwGroupName := orIfEmpty resources.group_name (normalizedName ++ "-rw")
    let _roGroupName := deriveRoGroupName rwGroupName normalizedName
    let snowflakeOutcome := deleteSnowflakeResources denv normalizedName resources
    let databricksOutcome := denv.databricksOutcome
    let identityOutcome := denv.identityOutcome
    let azureOutcome := denv.azureOutcome
    let outcomes := [snowflakeOutcome, databricksOutcome, identityOutcome, azureOutcome]
    let sd :=
      if outcomes.all (fun o => o.succeeded) then
        if stateExists then storeDeleteJ store stateKey
        else (store, true)
      else (store, false)
    (.ok ⟨name, normalizedName, record.request.name, sd.2, stateExists,
      azureOutcome, identityOutcome, databricksOutcome, snowflakeOutcome⟩, sd.1)

/-! ## Workflow runner (workflow.py) -/

/-- workflow.WorkflowStep: a named action over the shared context with
an optional compensator.  Actions and compensators are embedded as
context transformers that may fail. -/
structure WorkflowStep (Ctx : Type) where
  name : String
  action : Ctx → Except String Ctx
  compensator : Option (Ctx → Except String Ctx)

/-- Observable events of one workflow run: an action that completed, a
compensator that completed, a compensator whose exception was swallowed
and logged. -/
inductive WfEvent where
  | ranAction (name : String)
  | ranCompensator (name : String)
  | compensationFailed (name : String)
deriving DecidableEq, Repr

/-- The step name an event refers to. -/
def wfEventName : WfEvent → String
  | .ranAction n => n
  | .ranCompensator n => n
  | .compensationFailed n => n

/-- Iteration of WorkflowRunner._compensate over an already-reversed
executed list: skip steps without a compensator, run the others, and
swallow (but record) compensator failures. -/
def compensateGo {Ctx : Type} : List (WorkflowStep Ctx) → Ctx → Ctx × List WfEvent
  | [], ctx => (ctx, [])
  | s :: rest, ctx =>
    match s.compensator with
    | none => compensateGo rest ctx
    | some comp =>
      match comp ctx with
      | .ok ctx2 =>
        let r := compensateGo rest ctx2
        (r.1, .ranCompensator s.name :: r.2)
      | .error _ =>
        let r := compensateGo rest ctx
        (r.1, .compensationFailed s.name :: r.2)

/-- workflow.WorkflowRunner._compensate: compensators of the executed
steps, in reverse order. -/
def compensate {Ctx : Type} (executed : List (WorkflowStep Ctx)) (ctx : Ctx) :
    Ctx × List WfEvent :=
  compensateGo executed.reverse ctx

/-- workflow.WorkflowRunner.run, with the executed-steps accumulator made
explicit: run actions in order; on a failure compensate the executed
steps and surface a WorkflowExecutionError carrying the failed step's
name.  The second component is the event trace. -/
def runWorkflowAux {Ctx : Type} :
    List (WorkflowStep Ctx) → Ctx → List (WorkflowStep Ctx) →
      Except String Ctx × List WfEvent
  | [], ctx, _ => (.ok ctx, [])
  | s :: rest, ctx, executed =>
    match s.action ctx with
    | .ok ctx2 =>
      let r := runWorkflowAux rest ctx2 (executed ++ [s])
      (r.1, .ranAction s.name :: r.2)
    | .error _ =>
      let c := compensate executed ctx
      (.error s.name, c.2)

/-- workflow.WorkflowRunner.run. -/
def runWorkflow {Ctx : Type} (steps : List (WorkflowStep Ctx)) (ctx : Ctx) :
    Except String Ctx × List WfEvent :=
  runWorkflowAux steps ctx []

/-- Spec-side description (from the claim's words, for comparison with
the embedded runner): thread the actions in order, yielding the final
context when every action succeeds. -/
def runActionsSpec {Ctx : Type} : List (WorkflowStep Ctx) → Ctx → Option Ctx
  | [], ctx => some ctx
  | s :: rest, ctx =>
    match s.action ctx with
    | .ok c => runActionsSpec rest c
    | .error _ => none

/-- Spec-side description (from the claim's words): the first failing
step, together with the previously successful steps in order and the
context in which the failing action ran. -/
def firstFailureSpec {Ctx : Type} :
    List (WorkflowStep Ctx) → Ctx →
      Option (List (WorkflowStep Ctx) × WorkflowStep Ctx × Ctx)
  | [], _ => none
  | s :: rest, ctx =>
    match s.action ctx with
    | .error _ => some ([], s, ctx)
    | .ok c =>
      match firstFailureSpec rest c with
      | some r => some (s :: r.1, r.2)
      | none => none

/-! ## Concrete fixtures used by witnesses and counterexamples -/

/-- Boolean success test for an Except value. -/
def exceptIsOk : Except ε α → Bool
  | .ok _ => true
  | .error _ => false

/-- A fixed clock value. -/
def t0 : PyDateTime := ⟨2024, 1, 1, 0, 0, 0, 0⟩

/-- A second fixed clock value. -/
def t1 : PyDateTime := ⟨2024, 1, 2, 3, 4, 5, 0⟩

/-- A configuration with no naming prefix. -/
def cfgDemo : AutomationCfg :=
  { azure := ⟨"0000-1111", "tenant", "storageacct", "identity-rg", "dfs.core.windows.net"⟩
    databricks := ⟨"https://ws.example.com", "connector-id"⟩
    snowflake := ⟨"", ["PRINCIPAL_ROLE:snowflake"], "FLATTEN_NESTED_NAMESPACE", "-",
                  "ICEBERG_REST", "ICEBERG"⟩
    naming := ⟨"", "-"⟩ }

/-- The same configuration with the global prefix "acme" and separator "-". -/
def cfgAcme : AutomationCfg :=
  { cfgDemo with naming := ⟨"acme", "-"⟩ }

/-- The sample record the repository's serialization tests construct. -/
def sampleRecord : DatasourceRecord :=
  { request := ⟨"sample", none, none, []⟩
    resources := ⟨"abfss://sample@acct.dfs.core.windows.net/",
      "/subscriptions/sub/resourceGroups/rg/providers/Microsoft.ManagedIdentity/userAssignedIdentities/sample",
      "sample", "sample", "sample", "sample-rw", "app", "secret", "db-secret",
      "sample", "sample", "sample_db", t0⟩
    status := "succeeded"
    last_error := none
    updated_at := t1 }

/-- An attempt family that fails with transient network errors on the
first two attempts and succeeds on the third. -/
def attemptsTransientTwice : Nat → Except PyErr Nat
  | 1 => .error (.connectionError "connection refused")
  | 2 => .error (.timeoutError "timed out")
  | _ => .ok 42

/-- A record provisioned under the name "demo" (all resource names follow
the convention for "demo"). -/
def recDemo : DatasourceRecord :=
  { request := ⟨"demo", none, none, []⟩
    resources := ⟨"abfss://demo@storageacct.dfs.core.windows.net/",
      "/subscriptions/0000-1111/resourceGroups/identity-rg/providers/Microsoft.ManagedIdentity/userAssignedIdentities/demo",
      "demo", "demo", "demo", "demo-rw", "app-id", "azure-secret", "db-secret",
      "demo", "demo", "demo_linked_db", t0⟩
    updated_at := t0 }

/-- A store directory holding the serialized "demo" record, exactly as
StateStore.save writes it. -/
def storeDemo : StoreJ := [("demo", recordToJson recDemo)]

/-- A prior "demo" record in failed state. -/
def recDemoFailed : DatasourceRecord :=
  { recDemo with status := "failed", last_error := some "boom" }

/-- A store directory holding the serialized failed "demo" record. -/
def storeDemoFailed : StoreJ := [("demo", recordToJson recDemoFailed)]

/-- A record for a different datasource, "other". -/
def recOther : DatasourceRecord :=
  { recDemo with request := ⟨"other", none, none, []⟩ }

/-- A store directory holding only the serialized "other" record. -/
def storeOther : StoreJ := [("other", recordToJson recOther)]

/-- A deletion environment where every subsystem teardown succeeds. -/
def denvAllOk : DeleteEnv :=
  { resolveApplicationAppId := fun _ => .ok none
    snowflakeDropObjects := fun _ _ _ => .ok ⟨true, true, true⟩
    databricksOutcome := ⟨true, none⟩
    identityOutcome := ⟨true, none⟩
    azureOutcome := ⟨true, none⟩
    now := t0 }

/-- A deletion environment where only the Snowflake teardown raises. -/
def denvSnowFail : DeleteEnv :=
  { denvAllOk with snowflakeDropObjects := fun _ _ _ => .error (.runtimeError "drop failed") }

/-! ## Retry-policy lemmas (claim C5) -/

/-- The attempt counter of the bounded retry never exceeds the starting
attempt number plus the remaining budget. -/
theorem retryLoop_attempts_le (f : Nat → Except PyErr α) :
    ∀ (rem k : Nat), (retryLoop f (rem + 1) k).2.1 ≤ k + rem := by
  intro rem
  induction rem with
  | zero =>
    intro k
    simp only [retryLoop]
    cases f k with
    | ok v => simp
    | error e => simp
  | succ n ih =>
    intro k
    simp only [retryLoop]
    cases f k with
    | ok v => simp
    | error e =>
      by_cases h : isRetryableErr e = true ∧ n + 1 ≠ 0
      · simp only [if_pos h]
        have h2 := ih (k + 1)
        simp only [retryLoop] at h2
        omega
      · simp only [if_neg h]
        omega

/-- C5: the creation sequence is retried only on transient network
failures (ConnectionError, TimeoutError), up to 3 attempts total; two
transient failures followed by a success yield overall success after
exactly 3 attempts with backoff waits 1 and 2 and no surfaced error; a
non-retryable failure aborts after a single attempt; the backoff starts
at 1 time-unit, doubles, and is capped at 8. -/
theorem provision_retry_policy :
    (∀ (f : Nat → Except PyErr Nat) (v : Nat) (e1 e2 : PyErr),
        f 1 = .error e1 → isRetryableErr e1 = true →
        f 2 = .error e2 → isRetryableErr e2 = true →
        f 3 = .ok v →
        provisionRetryPolicy f = (.ok v, 3, [1, 2]))
    ∧ (∀ (f : Nat → Except PyErr Nat) (e : PyErr),
        f 1 = .error e → isRetryableErr e = false →
        provisionRetryPolicy f = (.error e, 1, []))
    ∧ (∀ (f : Nat → Except PyErr Nat), (provisionRetryPolicy f).2.1 ≤ 3)
    ∧ (waitExponential 1 1 8 1 = 1
        ∧ (∀ k, 1 ≤ k → waitExponential 1 1 8 (k + 1) = min (2 * waitExponential 1 1 8 k) 8)
        ∧ (∀ k, waitExponential 1 1 8 k ≤ 8)) := by
  refine ⟨?_, ?_, ?_, ?_, ?_, ?_⟩
  · intro f v e1 e2 h1 hr1 h2 hr2 h3
    simp [provisionRetryPolicy, retryLoop, h1, hr1, h2, hr2, h3, waitExponential]
  · intro f e h1 hr1
    simp [provisionRetryPolicy, retryLoop, h1, hr1]
  · intro f
    have := retryLoop_attempts_le f 2 1
    simpa [provisionRetryPolicy] using this
  · rfl
  · intro k hk
    rcases Nat.exists_eq_add_of_le hk with ⟨m, rfl⟩
    simp only [waitExponential, one_mul]
    rcases Nat.lt_or_ge m 3 with hm | hm
    · interval_cases m <;> decide
    · have h8 : (8 : Nat) ≤ 2 ^ (1 + m - 1) := by
        calc (8 : Nat) = 2 ^ 3 := by norm_num
        _ ≤ 2 ^ (1 + m - 1) := Nat.pow_le_pow_right (by norm_num) (by omega)
      have h16 : (8 : Nat) ≤ 2 ^ (1 + m + 1 - 1) := by
        calc (8 : Nat) = 2 ^ 3 := by norm_num
        _ ≤ 2 ^ (1 + m + 1 - 1) := Nat.pow_le_pow_right (by norm_num) (by omega)
      rw [Nat.min_eq_right h8, Nat.min_eq_right h16]
      omega
  · intro k
    simp only [waitExponential, one_mul]
    omega

/-- C5 witness: two transient network failures then a success is an
overall success with exactly 3 attempts and waits 1 and 2. -/
theorem provision_retry_policy_witness :
    provisionRetryPolicy attemptsTransientTwice = (.ok 42, 3, [1, 2]) :=
  provision_retry_policy.1 attemptsTransientTwice 42
    (.connectionError "connection refused") (.timeoutError "timed out")
    rfl rfl rfl rfl rfl

/-! ## Serialization round trip (claim C2) -/

/-- C2: the round trip deserialize(serialize(record)) does not reproduce
the record.  _json_to_record passes only seven string fields plus
created_at to the DatasourceResources constructor, omitting the five
remaining required fields (both client secrets and the three Snowflake
names), so the constructor call fails (a TypeError in the source) on the
very record the repository's own serialization tests round-trip. -/
theorem state_roundtrip_drops_fields :
    jsonToRecord (recordToJson sampleRecord) t0 =
      Except.error "DatasourceResources missing required argument: service_principal_client_secret" := by
  rfl

/-! ## Deletion theorems (claims C3, C4, C9) -/

/-- C3: the state-deletion logic is unreachable.  delete_datasource
resolves the record by parsing the stored document with _json_to_record,
which fails on every document save produces (five required
DatasourceResources constructor fields are omitted), so with a stored
"demo" record — and all four teardowns able to succeed — delete
propagates the TypeError before any teardown or state-store deletion,
and the stored record remains in place. -/
theorem delete_stored_record_resolution_raises :
    deleteDatasourceE denvAllOk cfgDemo storeDemo "demo" =
      (.error (.typeError "DatasourceResources missing required argument: service_principal_client_secret"),
       storeDemo) := by
  rfl

/-- C4: with a stored record and only the Snowflake teardown set to
raise, delete does not return the claimed aggregated
DatasourceDeletionResult: it raises the deserialization TypeError during
record resolution, before any subsystem teardown is attempted, and
leaves the store unchanged. -/
theorem delete_partial_failure_raises_at_resolution :
    deleteDatasourceE denvSnowFail cfgDemo storeDemo "demo" =
      (.error (.typeError "DatasourceResources missing required argument: service_principal_client_secret"),
       storeDemo) := by
  rfl

/-- C9 counterexample: with any stored document present — here a record
for "other", which matches neither lookup key for "demo" nor the
normalized-name scan — list_records parses it with _json_to_record and
raises, so delete("demo") propagates a TypeError instead of returning a
result with state_found = false as claimed. -/
theorem delete_nonempty_store_scan_raises_counterexample :
    deleteDatasourceE denvAllOk cfgDemo storeOther "demo" =
      (.error (.typeError "DatasourceResources missing required argument: service_principal_client_secret"),
       storeOther) := by
  rfl

/-- C9 (amended): when the state directory holds no documents at all,
delete synthesizes an inferred record from the naming conventions —
credential, location, catalog, external-volume and integration names
equal to the normalized name, linked database suffixed with _linked_db,
service-principal id via best-effort application lookup — and returns,
without raising, a result with state_found = false; for "demo" with no
prefix configured the container name is "demo" and the linked database
"demo_linked_db". -/
theorem delete_empty_store_uses_inferred_names
    (denv : DeleteEnv) (cfg : AutomationCfg) (name : String) :
    (findStateRecordE denv cfg [] name (normalizeName cfg name) =
      .ok (buildInferredRecord denv cfg (normalizeName cfg name), normalizeName cfg name, false))
    ∧ exceptIsOk (deleteDatasourceE denv cfg [] name).1 = true
    ∧ (∀ res, (deleteDatasourceE denv cfg [] name).1 = .ok res → res.state_found = false)
    ∧ (inferredResources denv cfg (normalizeName cfg name)).storage_credential_name = normalizeName cfg name
    ∧ (inferredResources denv cfg (normalizeName cfg name)).external_location_name = normalizeName cfg name
    ∧ (inferredResources denv cfg (normalizeName cfg name)).catalog_name = normalizeName cfg name
    ∧ (inferredResources denv cfg (normalizeName cfg name)).snowflake_external_volume_name = normalizeName cfg name
    ∧ (inferredResources denv cfg (normalizeName cfg name)).snowflake_catalog_integration_name = normalizeName cfg name
    ∧ (inferredResources denv cfg (normalizeName cfg name)).snowflake_database_name = normalizeName cfg name ++ "_linked_db"
    ∧ extractContainerName (inferredResources denvAllOk cfgDemo "demo").container_url = "demo"
    ∧ extractIdentityName (inferredResources denvAllOk cfgDemo "demo").managed_identity_id "demo" = "demo"
    ∧ normalizeName cfgDemo "demo" = "demo" := by
  have hfind : findStateRecordE denv cfg [] name (normalizeName cfg name) =
      .ok (buildInferredRecord denv cfg (normalizeName cfg name), normalizeName cfg name, false) := rfl
  refine ⟨hfind, ?_, ?_, rfl, rfl, rfl, rfl, rfl, rfl, by rfl, by rfl, by rfl⟩
  · simp only [deleteDatasourceE, hfind]
    rfl
  · intro res hres
    simp only [deleteDatasourceE, hfind] at hres
    simp only [Except.ok.injEq] at hres
    rw [← hres]

/-- C9 (amended) witness: delete("demo") against an empty state
directory returns (without raising) state_found = false with the
conventional inferred names. -/
theorem delete_empty_store_uses_inferred_names_witness :
    exceptIsOk (deleteDatasourceE denvAllOk cfgDemo [] "demo").1 = true
    ∧ ((deleteDatasourceE denvAllOk cfgDemo [] "demo").1.toOption.map
        (fun r => r.state_found)) = some false
    ∧ extractContainerName (inferredResources denvAllOk cfgDemo "demo").container_url = "demo"
    ∧ (inferredResources denvAllOk cfgDemo (normalizeName cfgDemo "demo")).snowflake_database_name =
        normalizeName cfgDemo "demo" ++ "_linked_db" := by
  have h := delete_empty_store_uses_inferred_names denvAllOk cfgDemo "demo"
  refine ⟨h.2.1, ?_, h.2.2.2.2.2.2.2.2.2.1, h.2.2.2.2.2.2.2.2.1⟩
  cases hres : (deleteDatasourceE denvAllOk cfgDemo [] "demo").1 with
  | ok res =>
    have hsf := h.2.2.1 res hres
    simp [Except.toOption, hsf]
  | error e =>
    have hk := h.2.1
    rw [hres] at hk
    simp [exceptIsOk] at hk

/-! ## Creation theorems (claims C6, C1, C7) -/

/-- A provisioning function that always fails with a RuntimeError after
one remote call. -/
def provFail : ProvisionFun :=
  fun _ _ _ _ => (.error (.runtimeError "boom"), ["ensure_container"])

/-- A request whose name is already in normalized form. -/
def reqDemo : DatasourceRequest := ⟨"demo", none, none, []⟩

/-- C6 counterexample: when a (failed) record is already stored under
the normalized key, create raises the deserialization TypeError at the
state lookup — before provisioning, persisting nothing and re-raising
nothing of the provisioning error — so the claimed reuse of previously
recorded resources fails at this input. -/
theorem create_prior_record_lookup_raises_counterexample :
    createDatasourceE cfgDemo provFail storeDemoFailed reqDemo t0 =
      (.error (.typeError "DatasourceResources missing required argument: service_principal_client_secret"),
       storeDemoFailed, []) := by
  rfl

/-- C6 (amended): when no record is stored under the normalized key and
provisioning fails, create persists a record with status failed and
last_error set to the error text, with empty-string resources, and
re-raises the same error.  (When a record is stored under that key, the
state lookup itself raises a TypeError — see the counterexample — so the
source's resource-reuse branch is unreachable.) -/
theorem create_failure_no_prior_record_persists_and_reraises
    (cfg : AutomationCfg) (provision : ProvisionFun) (store : StoreJ)
    (request : DatasourceRequest) (now : PyDateTime) (e : PyErr)
    (hnone : storeGetE store (normalizeName cfg request.name) now = .ok none)
    (hfail : (provision (normalizeName cfg request.name) request (buildTags request) none).1 = .error e) :
    createDatasourceE cfg provision store request now =
      (.error e,
       storeSaveJ store ((DatasourceRecord.mk request (emptyResources now) "succeeded" none now).markFailed (strErr e) now),
       (provision (normalizeName cfg request.name) request (buildTags request) none).2) := by
  simp only [createDatasourceE, hnone, createProvisionPathE, hfail]

/-- C6 (amended) witness: a failing provision against an empty state
directory persists an empty-resourced failed record and re-raises. -/
theorem create_failure_no_prior_record_persists_and_reraises_witness :
    createDatasourceE cfgDemo provFail [] reqDemo t0 =
      (.error (.runtimeError "boom"),
       storeSaveJ [] ((DatasourceRecord.mk reqDemo (emptyResources t0) "succeeded" none t0).markFailed "boom" t0),
       ["ensure_container"]) :=
  create_failure_no_prior_record_persists_and_reraises cfgDemo provFail [] reqDemo t0
    (.runtimeError "boom") rfl rfl

/-- A provisioning environment whose remote subsystems all succeed with
fixed identifiers. -/
def envDemo : ProvisionEnv :=
  { ensureContainer := fun n _ =>
      ⟨n, "https://storageacct.blob.core.windows.net/" ++ n,
       "abfss://" ++ n ++ "@storageacct.dfs.core.windows.net/", "container-rid"⟩
    ensureUserAssignedIdentity := fun n _ =>
      ⟨n, "mi-client", "mi-principal",
       "/subscriptions/0000-1111/resourceGroups/identity-rg/providers/Microsoft.ManagedIdentity/userAssignedIdentities/" ++ n⟩
    ensureApplication := fun n => ⟨"app-object", n⟩
    ensureServicePrincipal := fun _ => ⟨"sp-object", "sp-display", "sp-app-id", "sp-client-id"⟩
    ensureGroup := fun n _ => ⟨"group-object", n⟩
    createApplicationSecret := fun _ d => ⟨"key-id", d, "minted-azure-secret", t0⟩
    ensureAccountServicePrincipal := fun a d => ⟨"account-sp-id", a, d⟩
    ensureDatabricksGroup := fun n => ⟨⟨"ro-id", some (n ++ "-ro")⟩, ⟨"rw-id", some (n ++ "-rw")⟩⟩
    createServicePrincipalSecret := fun _ sn => ⟨"client", "secret-id", "minted-db-secret", sn⟩
    ensureStorageCredential := fun n _ => ⟨n, "cred-id"⟩
    ensureExternalLocation := fun n url _ => ⟨n, url⟩
    ensureCatalog := fun n _ => ⟨n, "metastore", "root"⟩
    ensureExternalVolume := fun n _ _ => ⟨n⟩
    ensureCatalogIntegration := fun _ args => .ok ⟨args.name⟩
    ensureCatalogLinkedDatabase := fun d _ _ _ _ => .ok ⟨d⟩
    primeCatalogLinkedDatabase := fun _ _ _ => .ok ()
    now := t0 }

/-- C1: create is not idempotent in the source.  The first create of
"demo" (a raw name equal to its normalization, so the saved file is the
one the lookup finds) fully succeeds (first conjunct); the second
identical create raises the deserialization TypeError from the state
lookup, with zero remote calls, instead of returning the stored record
(second conjunct). -/
theorem create_second_call_raises_deserialization_error :
    exceptIsOk (createDatasourceE cfgDemo (provisionOf envDemo cfgDemo) [] reqDemo t0).1 = true
    ∧ createDatasourceE cfgDemo (provisionOf envDemo cfgDemo)
        (createDatasourceE cfgDemo (provisionOf envDemo cfgDemo) [] reqDemo t0).2.1 reqDemo t1 =
      (.error (.typeError "DatasourceResources missing required argument: service_principal_client_secret"),
       (createDatasourceE cfgDemo (provisionOf envDemo cfgDemo) [] reqDemo t0).2.1, []) := by
  exact ⟨rfl, rfl⟩

/-- With a prior record holding a non-empty Azure client secret, the
provisioning sequence performs no create_application_secret call and the
produced record carries the cached value. -/
theorem provisionResources_cached_azure
    (env : ProvisionEnv) (cfg : AutomationCfg) (n : String) (r : DatasourceRequest)
    (t : List (String × String)) (ex : DatasourceRecord)
    (hsec : ex.resources.service_principal_client_secret ≠ "") :
    "create_application_secret" ∉ (provisionResources env cfg n r t (some ex)).2
    ∧ ∀ rec, (provisionResources env cfg n r t (some ex)).1 = .ok rec →
        rec.resources.service_principal_client_secret =
          ex.resources.service_principal_client_secret := by
  constructor
  · simp only [provisionResources, provisionFinish]
    split
    · split
      · simp [hsec]
      · simp [hsec]
    · split
      · split
        · simp [hsec]
        · simp [hsec]
      · simp [hsec]
    · simp [hsec]
  · intro rec hrec
    simp only [provisionResources, provisionFinish] at hrec
    split at hrec
    · split at hrec
      · simp at hrec
      · simp only [Except.ok.injEq] at hrec
        rw [← hrec]
        simp [hsec]
    · split at hrec
      · split at hrec
        · simp at hrec
        · simp only [Except.ok.injEq] at hrec
          rw [← hrec]
          simp [hsec]
      · simp at hrec
    · simp at hrec

/-- With a prior record holding a non-empty Databricks OAuth client
secret, the provisioning sequence performs no
create_service_principal_secret call and the produced record carries the
cached value. -/
theorem provisionResources_cached_databricks
    (env : ProvisionEnv) (cfg : AutomationCfg) (n : String) (r : DatasourceRequest)
    (t : List (String × String)) (ex : DatasourceRecord)
    (hsec : ex.resources.databricks_oauth_client_secret ≠ "") :
    "create_service_principal_secret" ∉ (provisionResources env cfg n r t (some ex)).2
    ∧ ∀ rec, (provisionResources env cfg n r t (some ex)).1 = .ok rec →
        rec.resources.databricks_oauth_client_secret =
          ex.resources.databricks_oauth_client_secret := by
  constructor
  · simp only [provisionResources, provisionFinish]
    split
    · split
      · simp [hsec]
      · simp [hsec]
    · split
      · split
        · simp [hsec]
        · simp [hsec]
      · simp [hsec]
    · simp [hsec]
  · intro rec hrec
    simp only [provisionResources, provisionFinish] at hrec
    split at hrec
    · split at hrec
      · simp at hrec
      · simp only [Except.ok.injEq] at hrec
        rw [← hrec]
        simp [hsec]
    · split at hrec
      · split at hrec
        · simp at hrec
        · simp only [Except.ok.injEq] at hrec
          rw [← hrec]
          simp [hsec]
      · simp at hrec
    · simp at hrec

/-- C7: the claimed scenario is unreachable in the source.  Re-invoking
create on a stored prior record that already holds both non-empty client
secrets raises the deserialization TypeError at the state lookup, before
any provisioning: no secret-minting call is made (the remote-call trace
is empty), but no resulting record carrying the cached secret is
produced either — create raises instead.  (The caching logic inside
_provision_resources itself is correct, see
provisionResources_cached_azure and provisionResources_cached_databricks
above; it is just never reached with a prior record.) -/
theorem create_cached_secret_lookup_raises :
    createDatasourceE cfgDemo (provisionOf envDemo cfgDemo) storeDemoFailed reqDemo t0 =
      (.error (.typeError "DatasourceResources missing required argument: service_principal_client_secret"),
       storeDemoFailed, []) := by
  rfl

/-! ## Naming-policy lemmas (claim C8) -/

/-- Collapsing dash runs preserves the first character. -/
theorem collapseDashes_head? (l : List Char) : (collapseDashes l).head? = l.head? := by
  induction l with
  | nil => rfl
  | cons c rest ih =>
    cases rest with
    | nil => rfl
    | cons d rest2 =>
      by_cases h : c = '-' ∧ d = '-'
      · rw [collapseDashes, if_pos h]
        rw [ih]
        simp [h.1, h.2]
      · rw [collapseDashes, if_neg h]
        rfl

/-- Collapsing dash runs preserves the last character. -/
theorem collapseDashes_getLast? (l : List Char) : (collapseDashes l).getLast? = l.getLast? := by
  induction l with
  | nil => rfl
  | cons c rest ih =>
    cases rest with
    | nil => rfl
    | cons d rest2 =>
      by_cases h : c = '-' ∧ d = '-'
      · rw [collapseDashes, if_pos h, ih]
        rw [List.getLast?_cons_cons]
      · rw [collapseDashes, if_neg h]
        cases hcol : collapseDashes (d :: rest2) with
        | nil =>
          have hh := collapseDashes_head? (d :: rest2)
          rw [hcol] at hh
          simp at hh
        | cons e es =>
          rw [List.getLast?_cons_cons, ← hcol, ih, List.getLast?_cons_cons]

/-- Collapsing dash runs only removes characters. -/
theorem collapseDashes_subset (l : List Char) : ∀ c ∈ collapseDashes l, c ∈ l := by
  induction l with
  | nil => intro c hc; exact absurd hc (List.not_mem_nil c)
  | cons a rest ih =>
    cases rest with
    | nil => intro c hc; exact hc
    | cons d rest2 =>
      by_cases h : a = '-' ∧ d = '-'
      · rw [collapseDashes, if_pos h]
        intro c hc
        exact List.mem_cons_of_mem a (ih c hc)
      · rw [collapseDashes, if_neg h]
        intro c hc
        rcases List.mem_cons.mp hc with hc | hc
        · exact hc ▸ List.mem_cons_self a (d :: rest2)
        · exact List.mem_cons_of_mem a (ih c hc)

/-- Collapsed output contains no doubled dash. -/
theorem collapseDashes_noDouble (l : List Char) : hasDoubleDash (collapseDashes l) = false := by
  induction l with
  | nil => rfl
  | cons c rest ih =>
    cases rest with
    | nil => rfl
    | cons d rest2 =>
      by_cases h : c = '-' ∧ d = '-'
      · rw [collapseDashes, if_pos h]
        exact ih
      · rw [collapseDashes, if_neg h]
        cases hcol : collapseDashes (d :: rest2) with
        | nil => rfl
        | cons e es =>
          have hh := collapseDashes_head? (d :: rest2)
          rw [hcol] at hh
          simp only [List.head?_cons] at hh
          have hed : e = d := by injection hh
          rw [hasDoubleDash]
          have hno : hasDoubleDash (e :: es) = false := by rw [← hcol]; exact ih
          rw [hno]
          have hcd : decide (c = '-' ∧ e = '-') = false := by
            rw [hed]
            simp only [decide_eq_false_iff_not]
            exact h
          rw [hcd]
          rfl

/-- The first element surviving dropWhile fails the predicate. -/
theorem dropWhile_head_false (p : Char → Bool) (l : List Char) :
    ∀ c, (l.dropWhile p).head? = some c → p c = false := by
  induction l with
  | nil => intro c hc; simp at hc
  | cons a rest ih =>
    intro c hc
    by_cases ha : p a
    · rw [List.dropWhile_cons_of_pos ha] at hc
      exact ih c hc
    · rw [List.dropWhile_cons_of_neg ha] at hc
      simp only [List.head?_cons] at hc
      cases hc
      exact Bool.of_not_eq_true ha

/-- dropWhile keeps the last element of the list when its result is
nonempty. -/
theorem dropWhile_getLast? (p : Char → Bool) (l : List Char) :
    ∀ c, (l.dropWhile p).getLast? = some c → l.getLast? = some c := by
  induction l with
  | nil => intro c hc; simp at hc
  | cons a rest ih =>
    intro c hc
    by_cases ha : p a
    · rw [List.dropWhile_cons_of_pos ha] at hc
      have hres := ih c hc
      cases rest with
      | nil => simp at hres
      | cons b rest2 => rw [List.getLast?_cons_cons]; exact hres
    · rw [List.dropWhile_cons_of_neg ha] at hc
      exact hc

/-- Stripping dashes leaves no leading dash. -/
theorem pyStripDashes_head (l : List Char) :
    ∀ c, (pyStripDashes l).head? = some c → c ≠ '-' := by
  intro c hc
  rw [pyStripDashes, List.head?_reverse] at hc
  have h1 := dropWhile_getLast? (fun x => x = '-') ((l.dropWhile (fun x => x = '-')).reverse) c hc
  rw [List.getLast?_reverse] at h1
  have h2 := dropWhile_head_false (fun x => x = '-') l c h1
  simpa using h2

/-- Stripping dashes leaves no trailing dash. -/
theorem pyStripDashes_getLast (l : List Char) :
    ∀ c, (pyStripDashes l).getLast? = some c → c ≠ '-' := by
  intro c hc
  rw [pyStripDashes, List.getLast?_reverse] at hc
  have h2 := dropWhile_head_false (fun x => x = '-') ((l.dropWhile (fun x => x = '-')).reverse) c hc
  simpa using h2

/-- Stripping dashes only removes characters. -/
theorem pyStripDashes_subset (l : List Char) : ∀ c ∈ pyStripDashes l, c ∈ l := by
  intro c hc
  rw [pyStripDashes, List.mem_reverse] at hc
  have h1 := (List.dropWhile_sublist (fun x => x = '-')).mem hc
  rw [List.mem_reverse] at h1
  exact (List.dropWhile_sublist (fun x => x = '-')).mem h1

/-- Every character of the substituted list is in [a-z0-9-]. -/
theorem dashSub_chars (l : List Char) : ∀ c ∈ dashSub l, isNameChar c = true := by
  intro c hc
  rw [dashSub, List.mem_map] at hc
  obtain ⟨a, _, ha⟩ := hc
  by_cases h : isNameChar a
  · rw [if_pos h] at ha
    rw [← ha]
    exact h
  · rw [if_neg h] at ha
    rw [← ha]
    rfl

/-- Every character of the sanitized base is in [a-z0-9-]. -/
theorem sanitizeBase_chars (raw : String) :
    ∀ c ∈ (sanitizeBase raw).data, isNameChar c = true := by
  intro c hc
  have h1 := collapseDashes_subset _ c hc
  have h2 := pyStripDashes_subset _ c h1
  exact dashSub_chars _ c h2

/-- The sanitized base starts with no dash. -/
theorem sanitizeBase_head (raw : String) :
    ∀ c, (sanitizeBase raw).data.head? = some c → c ≠ '-' := by
  intro c hc
  rw [sanitizeBase] at hc
  rw [collapseDashes_head?] at hc
  exact pyStripDashes_head _ c hc

/-- The sanitized base ends with no dash. -/
theorem sanitizeBase_getLast (raw : String) :
    ∀ c, (sanitizeBase raw).data.getLast? = some c → c ≠ '-' := by
  intro c hc
  rw [sanitizeBase] at hc
  rw [collapseDashes_getLast?] at hc
  exact pyStripDashes_getLast _ c hc

/-- The sanitized base has no doubled dash. -/
theorem sanitizeBase_noDouble (raw : String) :
    hasDoubleDash (sanitizeBase raw).data = false :=
  collapseDashes_noDouble _

/-- A prefix (take) of a list without doubled dashes has none either. -/
theorem hasDoubleDash_take :
    ∀ (l : List Char) (n : Nat), hasDoubleDash l = false → hasDoubleDash (l.take n) = false := by
  intro l
  induction l with
  | nil => intro n _; cases n <;> rfl
  | cons a t ih =>
    intro n h
    cases n with
    | zero => rfl
    | succ m =>
      rw [List.take_succ_cons]
      cases t with
      | nil =>
        cases m <;> rfl
      | cons b t2 =>
        rw [hasDoubleDash] at h
        have hab : decide (a = '-' ∧ b = '-') = false := by
          cases hd : decide (a = '-' ∧ b = '-')
          · rfl
          · rw [hd] at h; simp at h
        have hrest : hasDoubleDash (b :: t2) = false := by
          rw [hab] at h; simpa using h
        cases m with
        | zero => rfl
        | succ k =>
          rw [List.take_succ_cons, hasDoubleDash, hab]
          have := ih (k + 1) hrest
          rw [List.take_succ_cons] at this
          simpa using this

/-- Adjoining a character that does not create a dash pair preserves the
no-doubled-dash property. -/
theorem hasDoubleDash_cons_of (x : Char) (l : List Char)
    (h1 : hasDoubleDash l = false)
    (h2 : ¬ (x = '-' ∧ l.head? = some '-')) : hasDoubleDash (x :: l) = false := by
  cases l with
  | nil => rfl
  | cons d t =>
    rw [hasDoubleDash, h1]
    have hxd : decide (x = '-' ∧ d = '-') = false := by
      simp only [decide_eq_false_iff_not]
      intro hx
      exact h2 ⟨hx.1, by rw [hx.2]; rfl⟩
    rw [hxd]
    rfl

/-- head? of a nonzero-length take. -/
theorem head?_take_ne_zero (l : List Char) (n : Nat) (hn : n ≠ 0) :
    (l.take n).head? = l.head? := by
  cases l with
  | nil => simp
  | cons a t =>
    cases n with
    | zero => exact absurd rfl hn
    | succ m => rw [List.take_succ_cons]; rfl

/-- C8 (amended): with prefix "acme" and separator "-", every normalized
name has length at most 63, consists only of [a-z0-9-], has no leading
and no doubled dash, and — provided the sanitized base is nonempty and
the qualified name did not exceed 63 characters (truncation at 63 can
leave a trailing dash) — no trailing dash; and
normalize("My Data/Source!!") = "acme-my-data-source". -/
theorem normalize_name_shape (cfg : AutomationCfg) (raw : String)
    (hpre : cfg.naming.prefixValue = "acme") (hsep : cfg.naming.separator = "-") :
    (normalizeName cfg raw).length ≤ 63
    ∧ (∀ c ∈ (normalizeName cfg raw).data, isNameChar c = true)
    ∧ (normalizeName cfg raw).data.head? ≠ some '-'
    ∧ hasDoubleDash (normalizeName cfg raw).data = false
    ∧ (sanitizeBase raw ≠ "" → (qualifyName cfg (sanitizeBase raw)).length ≤ 63 →
        (normalizeName cfg raw).data.getLast? ≠ some '-')
    ∧ normalizeName cfg "My Data/Source!!" = "acme-my-data-source" := by
  have hq : ∀ b, qualifyName cfg b = "acme" ++ "-" ++ b := by
    intro b
    simp only [qualifyName, hpre, hsep]
    rw [if_pos (by decide)]
  have qdata : ∀ r : String, (qualifyName cfg (sanitizeBase r)).data =
      'a' :: 'c' :: 'm' :: 'e' :: '-' :: (sanitizeBase r).data := by
    intro r
    rw [hq, String.data_append, String.data_append]
    rfl
  have hdata : ∀ r : String, (normalizeName cfg r).data =
      ((qualifyName cfg (sanitizeBase r)).data).take 63 := fun _ => rfl
  refine ⟨?_, ?_, ?_, ?_, ?_, ?_⟩
  · show ((qualifyName cfg (sanitizeBase raw)).data.take 63).length ≤ 63
    rw [List.length_take]
    exact Nat.min_le_left _ _
  · intro c hc
    rw [hdata] at hc
    have hmem := List.take_subset 63 _ hc
    rw [qdata] at hmem
    rcases List.mem_cons.mp hmem with h | hmem
    · rw [h]; rfl
    rcases List.mem_cons.mp hmem with h | hmem
    · rw [h]; rfl
    rcases List.mem_cons.mp hmem with h | hmem
    · rw [h]; rfl
    rcases List.mem_cons.mp hmem with h | hmem
    · rw [h]; rfl
    rcases List.mem_cons.mp hmem with h | hmem
    · rw [h]; rfl
    exact sanitizeBase_chars raw c hmem
  · rw [hdata, head?_take_ne_zero _ 63 (by decide), qdata]
    simp
  · rw [hdata]
    apply hasDoubleDash_take
    rw [qdata]
    have h0 : hasDoubleDash (sanitizeBase raw).data = false := sanitizeBase_noDouble raw
    have h1 : hasDoubleDash ('-' :: (sanitizeBase raw).data) = false :=
      hasDoubleDash_cons_of '-' _ h0 (fun hp => sanitizeBase_head raw '-' hp.2 rfl)
    have h2 : hasDoubleDash ('e' :: '-' :: (sanitizeBase raw).data) = false :=
      hasDoubleDash_cons_of 'e' _ h1 (fun hp => by cases hp.1)
    have h3 : hasDoubleDash ('m' :: 'e' :: '-' :: (sanitizeBase raw).data) = false :=
      hasDoubleDash_cons_of 'm' _ h2 (fun hp => by cases hp.1)
    have h4 : hasDoubleDash ('c' :: 'm' :: 'e' :: '-' :: (sanitizeBase raw).data) = false :=
      hasDoubleDash_cons_of 'c' _ h3 (fun hp => by cases hp.1)
    exact hasDoubleDash_cons_of 'a' _ h4 (fun hp => by cases hp.1)
  · intro hbase hlen
    have hbd : (sanitizeBase raw).data ≠ [] := by
      intro hd
      apply hbase
      cases hsb : sanitizeBase raw
      rw [hsb] at hd
      simp at hd
      simp [hd]
    have hlen2 : ((qualifyName cfg (sanitizeBase raw)).data).length ≤ 63 := hlen
    rw [hdata, List.take_of_length_le hlen2]
    rw [hq, String.data_append]
    rw [List.getLast?_append_of_ne_nil _ hbd]
    intro h
    exact sanitizeBase_getLast raw '-' h rfl
  · show String.mk ((qualifyName cfg (sanitizeBase "My Data/Source!!")).data.take 63) =
      "acme-my-data-source"
    rw [hq]
    decide

/-- C8 counterexample: the 63-character truncation can leave a trailing
dash — normalizing 57 copies of "a" followed by "-bb" under prefix
"acme" yields a 63-character identifier ending in "-", contradicting the
claimed absence of trailing dashes. -/
theorem normalize_name_trailing_dash_counterexample :
    (normalizeName cfgAcme (String.mk (List.replicate 57 'a') ++ "-bb")).data.getLast? = some '-'
    ∧ (normalizeName cfgAcme (String.mk (List.replicate 57 'a') ++ "-bb")).length = 63 := by
  constructor
  · decide
  · decide

/-- C8 witness: the shape theorem applied to the spec's own example. -/
theorem normalize_name_shape_witness :
    (normalizeName cfgAcme "My Data/Source!!").length ≤ 63
    ∧ (normalizeName cfgAcme "My Data/Source!!").data.head? ≠ some '-'
    ∧ hasDoubleDash (normalizeName cfgAcme "My Data/Source!!").data = false
    ∧ (normalizeName cfgAcme "My Data/Source!!").data.getLast? ≠ some '-'
    ∧ normalizeName cfgAcme "My Data/Source!!" = "acme-my-data-source" := by
  have h := normalize_name_shape cfgAcme "My Data/Source!!" rfl rfl
  exact ⟨h.1, h.2.2.1, h.2.2.2.1, h.2.2.2.2.1 (by decide) (by decide), h.2.2.2.2.2⟩

/-! ## Workflow runner theorems (claim C10) -/

/-- The compensation events name exactly the steps that have a
compensator, in iteration order, whether or not each compensator
succeeded. -/
theorem compensateGo_names {Ctx : Type} (l : List (WorkflowStep Ctx)) :
    ∀ cx, ((compensateGo l cx).2).map wfEventName =
      (l.filter (fun s => s.compensator.isSome)).map (fun s => s.name) := by
  induction l with
  | nil => intro cx; rfl
  | cons s rest ih =>
    intro cx
    cases hc : s.compensator with
    | none =>
      simp only [compensateGo, hc, List.filter_cons]
      simp [hc, ih]
    | some comp =>
      cases hcc : comp cx with
      | ok c2 =>
        simp only [compensateGo, hc, hcc, List.filter_cons]
        simp [hc, wfEventName, ih]
      | error e =>
        simp only [compensateGo, hc, hcc, List.filter_cons]
        simp [hc, wfEventName, ih]

/-- Full characterization of the runner with an explicit executed
accumulator: success returns the threaded context with one ranAction
event per step in order; the first failure compensates the executed
prefix and surfaces the failing step's name. -/
theorem runWorkflowAux_characterization {Ctx : Type} :
    ∀ (steps : List (WorkflowStep Ctx)) (ctx : Ctx) (executed : List (WorkflowStep Ctx)),
      (∀ ctxF, runActionsSpec steps ctx = some ctxF →
        runWorkflowAux steps ctx executed =
          (.ok ctxF, steps.map (fun s => WfEvent.ranAction s.name)))
      ∧ (∀ pf f cx, firstFailureSpec steps ctx = some (pf, f, cx) →
        runWorkflowAux steps ctx executed =
          (.error f.name,
           pf.map (fun s => WfEvent.ranAction s.name) ++ (compensate (executed ++ pf) cx).2)) := by
  intro steps
  induction steps with
  | nil =>
    intro ctx executed
    constructor
    · intro ctxF h
      simp only [runActionsSpec, Option.some.injEq] at h
      subst h
      rfl
    · intro pf f cx h
      simp [firstFailureSpec] at h
  | cons s rest ih =>
    intro ctx executed
    cases ha : s.action ctx with
    | error e =>
      constructor
      · intro ctxF h
        simp only [runActionsSpec, ha] at h
        exact Option.noConfusion h
      · intro pf f cx h
        simp only [firstFailureSpec, ha, Option.some.injEq, Prod.mk.injEq] at h
        obtain ⟨h1, h2, h3⟩ := h
        subst h1
        subst h2
        subst h3
        simp only [runWorkflowAux, ha]
        simp
    | ok c =>
      constructor
      · intro ctxF h
        simp only [runActionsSpec, ha] at h
        simp only [runWorkflowAux, ha]
        rw [(ih c (executed ++ [s])).1 ctxF h]
        simp
      · intro pf f cx h
        simp only [firstFailureSpec, ha] at h
        cases hff : firstFailureSpec rest c with
        | none =>
          rw [hff] at h
          simp at h
        | some r =>
          obtain ⟨pf', f', cx'⟩ := r
          rw [hff] at h
          simp only [Option.some.injEq, Prod.mk.injEq] at h
          obtain ⟨h1, h2, h3⟩ := h
          subst h1
          subst h2
          subst h3
          simp only [runWorkflowAux, ha]
          rw [(ih c (executed ++ [s])).2 pf' f' cx' hff]
          simp [List.append_assoc]

/-- C10: the Workflow Runner executes actions in list order; when every
action succeeds it returns the threaded context; when the k-th action
raises it runs the compensators of exactly the previously successful
steps that have one, in reverse order, swallowing compensator failures,
and surfaces an error carrying the failed step's name. -/
theorem workflow_runner_saga {Ctx : Type} (steps : List (WorkflowStep Ctx)) (ctx : Ctx) :
    (∀ ctxF, runActionsSpec steps ctx = some ctxF →
      runWorkflow steps ctx = (.ok ctxF, steps.map (fun s => WfEvent.ranAction s.name)))
    ∧ (∀ pf f cx, firstFailureSpec steps ctx = some (pf, f, cx) →
      runWorkflow steps ctx =
        (.error f.name, pf.map (fun s => WfEvent.ranAction s.name) ++ (compensate pf cx).2))
    ∧ (∀ (executed : List (WorkflowStep Ctx)) (cx2 : Ctx),
      ((compensate executed cx2).2).map wfEventName =
        ((executed.filter (fun s => s.compensator.isSome)).reverse).map (fun s => s.name)) := by
  refine ⟨?_, ?_, ?_⟩
  · intro ctxF h
    exact (runWorkflowAux_characterization steps ctx []).1 ctxF h
  · intro pf f cx h
    have hr := (runWorkflowAux_characterization steps ctx []).2 pf f cx h
    simpa [runWorkflow] using hr
  · intro executed cx2
    rw [compensate, compensateGo_names, List.filter_reverse]

/-- A step that succeeds and has a succeeding compensator. -/
def wfStep1 : WorkflowStep (List String) :=
  ⟨"s1", fun c => .ok ("a1" :: c), some (fun c => .ok ("c1" :: c))⟩

/-- A step that succeeds and whose compensator raises. -/
def wfStep2 : WorkflowStep (List String) :=
  ⟨"s2", fun c => .ok ("a2" :: c), some (fun _ => .error "comp boom")⟩

/-- A step whose action raises; it has no compensator. -/
def wfStep3 : WorkflowStep (List String) :=
  ⟨"s3", fun _ => .error "boom", none⟩

/-- A three-step workflow whose third action fails. -/
def wfSteps : List (WorkflowStep (List String)) := [wfStep1, wfStep2, wfStep3]

/-- C10 witness: the third action fails, the failing compensator of step
2 is swallowed and logged, step 1's compensator runs afterwards, and the
surfaced error names "s3". -/
theorem workflow_runner_saga_witness :
    runWorkflow wfSteps [] =
      (.error "s3",
       [.ranAction "s1", .ranAction "s2", .compensationFailed "s2", .ranCompensator "s1"]) := by
  have h := (workflow_runner_saga wfSteps ([] : List String)).2.1
    [wfStep1, wfStep2] wfStep3 ["a2", "a1"] rfl
  rw [h]
  rfl

end DamAutomation
